import Mathlib

/-!
Verification of the Cropverse backend threshold, analytics and validation
logic.  Python numerics (floats and ints) are embedded as exact rationals
and integers; Firestore interactions are abstracted into explicit inputs
and returned values.  Each definition mirrors a function of the repository,
named after it.
-/

namespace Cropverse

/-! Constants from `functions/utils/thresholds.py`. -/

def TEMP_MAX : ℚ := 35
def TEMP_MIN : ℚ := 15
def TEMP_WARNING_MAX : ℚ := 32
def TEMP_WARNING_MIN : ℚ := 18

def HUMIDITY_MAX : ℚ := 80
def HUMIDITY_MIN : ℚ := 40
def HUMIDITY_WARNING_MAX : ℚ := 75
def HUMIDITY_WARNING_MIN : ℚ := 45

def METHANE_CRITICAL : ℤ := 300
def METHANE_WARNING : ℤ := 200
def METHANE_EXHAUST_FAN_THRESHOLD : ℤ := 200

def OTHER_GASES_CRITICAL : ℤ := 400
def OTHER_GASES_WARNING : ℤ := 300

def ALERT_TYPE_INFO : String := "info"
def ALERT_TYPE_WARNING : String := "warning"
def ALERT_TYPE_CRITICAL : String := "critical"

/-- `should_activate_exhaust_fan` from `utils/thresholds.py`. -/
def should_activate_exhaust_fan (methane_level : ℤ) : Bool :=
  decide (methane_level ≥ METHANE_EXHAUST_FAN_THRESHOLD)

/-- An alert as built by `services/alert_service.py`.  The `message` field of
the Python `Alert` is a formatted string rendering the same `value` and
`threshold` and is not modelled; `created_at`, `is_resolved` and `doc_id`
belong to the persistence layer and are modelled separately for resolution. -/
structure Alert where
  sensor_type : String
  alert_type : String
  value : ℚ
  threshold : ℚ
deriving DecidableEq, Repr

/-- `_check_temperature_threshold` from `services/alert_service.py`:
sequential early returns give strict precedence critical-high, critical-low,
warning-high, warning-low, else no alert. -/
def check_temperature_threshold (temperature temp_max temp_min
    temp_warning_max temp_warning_min : ℚ) : Option Alert :=
  if temperature > temp_max then
    some { sensor_type := "temperature", alert_type := ALERT_TYPE_CRITICAL,
           value := temperature, threshold := temp_max }
  else if temperature < temp_min then
    some { sensor_type := "temperature", alert_type := ALERT_TYPE_CRITICAL,
           value := temperature, threshold := temp_min }
  else if temperature > temp_warning_max then
    some { sensor_type := "temperature", alert_type := ALERT_TYPE_WARNING,
           value := temperature, threshold := temp_warning_max }
  else if temperature < temp_warning_min then
    some { sensor_type := "temperature", alert_type := ALERT_TYPE_WARNING,
           value := temperature, threshold := temp_warning_min }
  else
    none

/-- `_check_humidity_threshold` from `services/alert_service.py`. -/
def check_humidity_threshold (humidity humidity_max humidity_min
    humidity_warning_max humidity_warning_min : ℚ) : Option Alert :=
  if humidity > humidity_max then
    some { sensor_type := "humidity", alert_type := ALERT_TYPE_CRITICAL,
           value := humidity, threshold := humidity_max }
  else if humidity < humidity_min then
    some { sensor_type := "humidity", alert_type := ALERT_TYPE_CRITICAL,
           value := humidity, threshold := humidity_min }
  else if humidity > humidity_warning_max then
    some { sensor_type := "humidity", alert_type := ALERT_TYPE_WARNING,
           value := humidity, threshold := humidity_warning_max }
  else if humidity < humidity_warning_min then
    some { sensor_type := "humidity", alert_type := ALERT_TYPE_WARNING,
           value := humidity, threshold := humidity_warning_min }
  else
    none

/-- `_check_methane_threshold` from `services/alert_service.py`; the Python
code casts the int value and threshold to float for the alert record. -/
def check_methane_threshold (methane methane_critical methane_warning : ℤ) :
    Option Alert :=
  if methane > methane_critical then
    some { sensor_type := "methane", alert_type := ALERT_TYPE_CRITICAL,
           value := (methane : ℚ), threshold := (methane_critical : ℚ) }
  else if methane > methane_warning then
    some { sensor_type := "methane", alert_type := ALERT_TYPE_WARNING,
           value := (methane : ℚ), threshold := (methane_warning : ℚ) }
  else
    none

/-- `_check_other_gases_threshold` from `services/alert_service.py`. -/
def check_other_gases_threshold (other_gases other_gases_critical
    other_gases_warning : ℤ) : Option Alert :=
  if other_gases > other_gases_critical then
    some { sensor_type := "other_gases", alert_type := ALERT_TYPE_CRITICAL,
           value := (other_gases : ℚ), threshold := (other_gases_critical : ℚ) }
  else if other_gases > other_gases_warning then
    some { sensor_type := "other_gases", alert_type := ALERT_TYPE_WARNING,
           value := (other_gases : ℚ), threshold := (other_gases_warning : ℚ) }
  else
    none

/-- The twelve thresholds `check_thresholds` resolves through
`_get_threshold_value` (setting value, or the constant default). -/
structure Thresholds where
  temp_max : ℚ
  temp_min : ℚ
  temp_warning_max : ℚ
  temp_warning_min : ℚ
  humidity_max : ℚ
  humidity_min : ℚ
  humidity_warning_max : ℚ
  humidity_warning_min : ℚ
  methane_critical : ℤ
  methane_warning : ℤ
  other_gases_critical : ℤ
  other_gases_warning : ℤ
deriving DecidableEq, Repr

/-- The fallback configuration: every `_get_threshold_value` call returning
its default constant from `utils/thresholds.py`. -/
def defaultThresholds : Thresholds where
  temp_max := TEMP_MAX
  temp_min := TEMP_MIN
  temp_warning_max := TEMP_WARNING_MAX
  temp_warning_min := TEMP_WARNING_MIN
  humidity_max := HUMIDITY_MAX
  humidity_min := HUMIDITY_MIN
  humidity_warning_max := HUMIDITY_WARNING_MAX
  humidity_warning_min := HUMIDITY_WARNING_MIN
  methane_critical := METHANE_CRITICAL
  methane_warning := METHANE_WARNING
  other_gases_critical := OTHER_GASES_CRITICAL
  other_gases_warning := OTHER_GASES_WARNING

/-- The temperature contribution of `check_thresholds`: skipped when the
value `is None`, otherwise the helper alert, if any, is appended. -/
def temperature_alerts (temperature : Option ℚ) (th : Thresholds) : List Alert :=
  match temperature with
  | none => []
  | some t => (check_temperature_threshold t th.temp_max th.temp_min
      th.temp_warning_max th.temp_warning_min).toList

/-- The humidity contribution of `check_thresholds`. -/
def humidity_alerts (humidity : Option ℚ) (th : Thresholds) : List Alert :=
  match humidity with
  | none => []
  | some h => (check_humidity_threshold h th.humidity_max th.humidity_min
      th.humidity_warning_max th.humidity_warning_min).toList

/-- The methane contribution of `check_thresholds`. -/
def methane_alerts (methane : Option ℤ) (th : Thresholds) : List Alert :=
  match methane with
  | none => []
  | some m => (check_methane_threshold m th.methane_critical
      th.methane_warning).toList

/-- The other-gases contribution of `check_thresholds`. -/
def other_gases_alerts (other_gases : Option ℤ) (th : Thresholds) : List Alert :=
  match other_gases with
  | none => []
  | some g => (check_other_gases_threshold g th.other_gases_critical
      th.other_gases_warning).toList

/-- `check_thresholds` from `services/alert_service.py`: each sensor value,
when present (`is not None`), is checked by its helper and the returned
alert, if any, is appended to `alerts_created`, which is returned.
The inputs are `Option`s because the dict input path uses `.get`, which may
yield `None` for a missing key. -/
def check_thresholds (temperature humidity : Option ℚ)
    (methane other_gases : Option ℤ) (th : Thresholds) : List Alert :=
  temperature_alerts temperature th ++ humidity_alerts humidity th
    ++ methane_alerts methane th ++ other_gases_alerts other_gases th

/-! The `SensorReading` model from `models/sensor_reading.py`. -/

structure SensorReading where
  temperature : ℚ
  humidity : ℚ
  methane : ℤ
  other_gases : ℤ
  exhaust_fan : Bool
deriving DecidableEq, Repr

/-- `SensorReading.calculate_exhaust_fan_status`: fan is on when methane is
at least the threshold (default 200). -/
def calculate_exhaust_fan_status (methane : ℤ) (threshold : ℤ := 200) : Bool :=
  decide (methane ≥ threshold)

/-- `SensorReading.__init__`: when `exhaust_fan` is not supplied (is `None`),
it is derived via `calculate_exhaust_fan_status`; otherwise the supplied
boolean is stored. -/
def mkSensorReading (temperature humidity : ℚ) (methane other_gases : ℤ)
    (exhaust_fan : Option Bool) : SensorReading :=
  { temperature := temperature
    humidity := humidity
    methane := methane
    other_gases := other_gases
    exhaust_fan := match exhaust_fan with
      | none => calculate_exhaust_fan_status methane
      | some b => b }

/-! The `AnalyticsSummary` model of `models/analytics_summary.py`.
`summary_date` is an abstract day number; the date arithmetic and the
Firestore document id are not used by the properties below. -/

/-- Python `round(x, n)`: rounding to `n` decimal places.  Python uses
round-half-to-even on binary floats; exact decimal ties are not
representable there, so round-to-nearest on rationals is the faithful
reading for the values that actually occur. -/
def pyround (q : ℚ) (n : ℕ) : ℚ :=
  ((round (q * (10 : ℚ) ^ n) : ℤ) : ℚ) / (10 : ℚ) ^ n

structure AnalyticsSummary where
  summary_date : ℤ
  avg_temperature : ℚ
  max_temperature : ℚ
  min_temperature : ℚ
  avg_humidity : ℚ
  max_humidity : ℚ
  min_humidity : ℚ
  avg_methane : ℚ
  max_methane : ℤ
  avg_other_gases : ℚ
  alert_count : ℤ
  critical_alert_count : ℤ
  reading_count : ℤ
deriving DecidableEq, Repr

/-- `AnalyticsSummary.__init__`: every float statistic is stored rounded to
two decimal places, the counts are stored as ints. -/
def mkAnalyticsSummary (summary_date : ℤ)
    (avg_temperature max_temperature min_temperature : ℚ)
    (avg_humidity max_humidity min_humidity : ℚ)
    (avg_methane : ℚ) (max_methane : ℤ) (avg_other_gases : ℚ)
    (alert_count critical_alert_count reading_count : ℤ) : AnalyticsSummary :=
  { summary_date := summary_date
    avg_temperature := pyround avg_temperature 2
    max_temperature := pyround max_temperature 2
    min_temperature := pyround min_temperature 2
    avg_humidity := pyround avg_humidity 2
    max_humidity := pyround max_humidity 2
    min_humidity := pyround min_humidity 2
    avg_methane := pyround avg_methane 2
    max_methane := max_methane
    avg_other_gases := pyround avg_other_gases 2
    alert_count := alert_count
    critical_alert_count := critical_alert_count
    reading_count := reading_count }

/-- `AnalyticsSummary.get_temperature_range`. -/
def AnalyticsSummary.get_temperature_range (s : AnalyticsSummary) : ℚ :=
  pyround (s.max_temperature - s.min_temperature) 2

/-- `AnalyticsSummary.get_humidity_range`. -/
def AnalyticsSummary.get_humidity_range (s : AnalyticsSummary) : ℚ :=
  pyround (s.max_humidity - s.min_humidity) 2

/-- `AnalyticsSummary.get_alert_rate`: guarded against a zero reading count. -/
def AnalyticsSummary.get_alert_rate (s : AnalyticsSummary) : ℚ :=
  if s.reading_count = 0 then 0
  else pyround ((s.alert_count : ℚ) / (s.reading_count : ℚ) * 100) 2

/-- `AnalyticsSummary.get_critical_alert_percentage`: guarded against a zero
alert count. -/
def AnalyticsSummary.get_critical_alert_percentage (s : AnalyticsSummary) : ℚ :=
  if s.alert_count = 0 then 0
  else pyround ((s.critical_alert_count : ℚ) / (s.alert_count : ℚ) * 100) 2

/-- `AnalyticsSummary.is_temperature_stable` (default threshold 5.0). -/
def AnalyticsSummary.is_temperature_stable (s : AnalyticsSummary)
    (threshold : ℚ := 5) : Bool :=
  decide (s.get_temperature_range ≤ threshold)

/-- `AnalyticsSummary.is_humidity_stable` (default threshold 10.0). -/
def AnalyticsSummary.is_humidity_stable (s : AnalyticsSummary)
    (threshold : ℚ := 10) : Bool :=
  decide (s.get_humidity_range ≤ threshold)

/-- `AnalyticsSummary.get_overall_status`: sequential early returns. -/
def AnalyticsSummary.get_overall_status (s : AnalyticsSummary) : String :=
  if s.critical_alert_count > 0 then "Critical"
  else if s.alert_count > 20 then "Poor"
  else if s.alert_count > 5 ∨ s.is_temperature_stable = false
      ∨ s.is_humidity_stable = false then "Fair"
  else if s.alert_count > 0 then "Good"
  else "Excellent"

/-! `services/analytics_service.py`. -/

/-- Arithmetic mean of a list, as computed by `pandas.Series.mean`
(callers only apply it to nonempty lists). -/
def listMean (l : List ℚ) : ℚ := l.sum / (l.length : ℚ)

/-- `calculate_daily_summary` from `services/analytics_service.py`.
The Firestore fetch of the readings in `[dayStart, dayEnd]` and of the day
window alert counts is abstracted into the arguments; the function returns
`none` ("no data") when the fetched list is empty and otherwise builds the
aggregated `AnalyticsSummary` (which the service then persists). -/
def calculate_daily_summary (target_date : ℤ) (readings : List SensorReading)
    (alert_count critical_alert_count : ℤ) : Option AnalyticsSummary :=
  match readings with
  | [] => none
  | r :: rs =>
    let temps := (r :: rs).map SensorReading.temperature
    let hums := (r :: rs).map SensorReading.humidity
    let meths := (r :: rs).map (fun x => (x.methane : ℚ))
    let gases := (r :: rs).map (fun x => (x.other_gases : ℚ))
    some (mkAnalyticsSummary target_date
      (listMean temps) (temps.foldl max r.temperature)
      (temps.foldl min r.temperature)
      (listMean hums) (hums.foldl max r.humidity)
      (hums.foldl min r.humidity)
      (listMean meths) (((r :: rs).map SensorReading.methane).foldl max r.methane)
      (listMean gases)
      alert_count critical_alert_count ((r :: rs).length : ℤ))

/-- `df.groupby(date)` key set: the distinct calendar days of the window,
in ascending order (the frame is sorted by timestamp and pandas sorts the
group keys).  A reading is modelled as a `(day, value)` pair. -/
def distinct_days (rs : List (ℤ × ℚ)) : List ℤ :=
  List.insertionSort (fun a b => a ≤ b) ((rs.map Prod.fst).dedup)

/-- Mean of the values recorded on day `d`. -/
def dayMean (rs : List (ℤ × ℚ)) (d : ℤ) : ℚ :=
  listMean ((rs.filter (fun p => p.1 == d)).map Prod.snd)

/-- The per-day means `daily_avg` of `_calculate_sensor_trends`, in day
order. -/
def daily_averages (rs : List (ℤ × ℚ)) : List ℚ :=
  (distinct_days rs).map (dayMean rs)

/-- `np.polyfit(x, y, 1)[0]` with `x = 0, 1, ..., n-1`: the ordinary
least-squares slope in closed form from the normal equations. -/
def polyfit_slope (ys : List ℚ) : ℚ :=
  let n : ℚ := (ys.length : ℚ)
  let xs : List ℚ := (List.range ys.length).map (fun i => (i : ℚ))
  let sx := xs.sum
  let sy := ys.sum
  let sxy := (List.zipWith (fun x y => x * y) xs ys).sum
  let sxx := (xs.map (fun x => x * x)).sum
  (n * sxy - sx * sy) / (n * sxx - sx * sx)

/-- The trend classification of `_calculate_sensor_trends`.  The returned
dict additionally reports `round(trend_strength, 4)`; the unrounded
`trend_strength` local is modelled. -/
structure TrendResult where
  trend : String
  trend_strength : ℚ
deriving DecidableEq, Repr

/-- `_calculate_sensor_trends` from `services/analytics_service.py`, for one
sensor column: daily means, then the slope test (`len(daily_avg) >= 2`),
then classification with the 0.1 stability threshold. -/
def calculate_sensor_trends (rs : List (ℤ × ℚ)) : TrendResult :=
  let daily_avg := daily_averages rs
  if 2 ≤ daily_avg.length then
    let slope := polyfit_slope daily_avg
    { trend := if |slope| < 1/10 then "stable"
        else if slope > 0 then "increasing"
        else "decreasing"
      trend_strength := |slope| }
  else
    { trend := "insufficient_data", trend_strength := 0 }

/-- One entry of the pandas correlation matrix.  `pandas.DataFrame.corr`
returns NaN for a pair whenever one column has zero variance (the Pearson
denominator is zero); otherwise the value is `cov / sqrt (sxx * syy)`,
whose irrational square root is kept symbolically: definedness, not the
magnitude, is what the properties below concern. -/
inductive CorrValue where
  | nan : CorrValue
  | defined (cov sxx syy : ℚ) : CorrValue
deriving DecidableEq, Repr

/-- The Pearson entry for two equal-length columns, as pandas computes it:
centred second moments; NaN when either variance is zero. -/
def pearson_entry (xs ys : List ℚ) : CorrValue :=
  let mx := listMean xs
  let my := listMean ys
  let sxx := (xs.map (fun x => (x - mx) * (x - mx))).sum
  let syy := (ys.map (fun y => (y - my) * (y - my))).sum
  let cov := (List.zipWith (fun x y => (x - mx) * (y - my)) xs ys).sum
  if sxx = 0 ∨ syy = 0 then CorrValue.nan
  else CorrValue.defined cov sxx syy

/-- Result shape of `get_correlations`: either the explicit insufficient
data error dict, or the matrix dict of the six upper-triangle pairs. -/
inductive CorrelationsResult where
  | insufficient (data_points : ℕ) : CorrelationsResult
  | matrix (entries : List (String × CorrValue)) (data_points : ℕ) :
      CorrelationsResult
deriving DecidableEq, Repr

/-- `get_correlations` from `services/analytics_service.py`.  The 7-day
Firestore fetch is abstracted into the `readings` argument; fewer than 10
readings yield the explicit insufficient-data result, otherwise the pairwise
entries of `df[sensors].corr()` are emitted (the dict values are
`round(..., 3)` of the matrix entries, which keeps NaN as NaN). -/
def get_correlations (readings : List SensorReading) : CorrelationsResult :=
  if readings.length < 10 then CorrelationsResult.insufficient readings.length
  else
    let temps := readings.map SensorReading.temperature
    let hums := readings.map SensorReading.humidity
    let meths := readings.map (fun r => (r.methane : ℚ))
    let gases := readings.map (fun r => (r.other_gases : ℚ))
    CorrelationsResult.matrix
      [("temperature_humidity", pearson_entry temps hums),
       ("temperature_methane", pearson_entry temps meths),
       ("temperature_other_gases", pearson_entry temps gases),
       ("humidity_methane", pearson_entry hums meths),
       ("humidity_other_gases", pearson_entry hums gases),
       ("methane_other_gases", pearson_entry meths gases)]
      readings.length

/-! `utils/validators.py`. -/

/-- A JSON-ish field value: numeric (Python int or float, embedded as one
rational) or non-numeric. -/
inductive PyVal where
  | num (q : ℚ) : PyVal
  | str (s : String) : PyVal
deriving DecidableEq, Repr

/-- Python `int(x)` on a float: truncation toward zero. -/
def pytrunc (q : ℚ) : ℤ := if 0 ≤ q then ⌊q⌋ else ⌈q⌉

/-- `validate_temperature` from `utils/validators.py`. -/
def validate_temperature : PyVal → Bool × String
  | PyVal.str _ => (false, "Temperature must be a number")
  | PyVal.num q =>
    if q < 0 then (false, "Temperature cannot be negative")
    else if q > 60 then (false, "Temperature must be between 0-60°C")
    else (true, "")

/-- `validate_humidity` from `utils/validators.py`. -/
def validate_humidity : PyVal → Bool × String
  | PyVal.str _ => (false, "Humidity must be a number")
  | PyVal.num q =>
    if q < 0 then (false, "Humidity cannot be negative")
    else if q > 100 then (false, "Humidity must be between 0-100%")
    else (true, "")

/-- `validate_methane` from `utils/validators.py` (the value is truncated to
int before the range check). -/
def validate_methane : PyVal → Bool × String
  | PyVal.str _ => (false, "Methane value must be a number")
  | PyVal.num q =>
    let m := pytrunc q
    if m < 0 then (false, "Methane value cannot be negative")
    else if m > 1023 then
      (false, "Methane must be between 0-1023 (Arduino analog range)")
    else (true, "")

/-- `validate_other_gases` from `utils/validators.py`. -/
def validate_other_gases : PyVal → Bool × String
  | PyVal.str _ => (false, "Other gases value must be a number")
  | PyVal.num q =>
    let g := pytrunc q
    if g < 0 then (false, "Other gases value cannot be negative")
    else if g > 1023 then
      (false, "Other gases must be between 0-1023 (Arduino analog range)")
    else (true, "")

/-- The input mapping: each required field either absent or bound to a
value. -/
structure ReadingDict where
  temperature : Option PyVal
  humidity : Option PyVal
  methane : Option PyVal
  other_gases : Option PyVal
deriving DecidableEq, Repr

/-- `validate_sensor_reading_dict` from `utils/validators.py`: first the
presence loop over the four required fields in fixed order, then the four
per-field validators in fixed order, each early-returning its error
prefixed by the field name; success is `(True, "")`. -/
def validate_sensor_reading_dict (data : ReadingDict) : Bool × String :=
  match data.temperature with
  | none => (false, "Missing required field: temperature")
  | some tv =>
    match data.humidity with
    | none => (false, "Missing required field: humidity")
    | some hv =>
      match data.methane with
      | none => (false, "Missing required field: methane")
      | some mv =>
        match data.other_gases with
        | none => (false, "Missing required field: other_gases")
        | some gv =>
          let tr := validate_temperature tv
          if tr.1 = false then (false, "temperature: " ++ tr.2)
          else
            let hr := validate_humidity hv
            if hr.1 = false then (false, "humidity: " ++ hr.2)
            else
              let mr := validate_methane mv
              if mr.1 = false then (false, "methane: " ++ mr.2)
              else
                let gr := validate_other_gases gv
                if gr.1 = false then (false, "other_gases: " ++ gr.2)
                else (true, "")

/-! Alert resolution: `resolve_alert` in `services/alert_service.py` over
`update_alert_status` in `services/firestore_service.py`. -/

/-- The persisted resolution fields of one alert document. -/
structure AlertRecord where
  is_resolved : Bool
  resolved_at : Option ℤ
deriving DecidableEq, Repr

/-- `update_alert_status(alert_id, is_resolved)`: the Firestore update
writes `is_resolved`, and writes `resolved_at = utcnow()` whenever
`is_resolved` is true — without reading the previous document state.  The
pair is the updated document and the returned boolean. -/
def update_alert_status (a : AlertRecord) (is_resolved : Bool) (now : ℤ) :
    AlertRecord × Bool :=
  ({ is_resolved := is_resolved,
     resolved_at := if is_resolved then some now else a.resolved_at }, true)

/-- `resolve_alert(alert_id)` delegates to
`update_alert_status(alert_id, is_resolved=True)`. -/
def resolve_alert (a : AlertRecord) (now : ℤ) : AlertRecord × Bool :=
  update_alert_status a true now

/-! Helper lemmas about the per-sensor alert contributions. -/

lemma mem_temperature_alerts {o : Option ℚ} {th : Thresholds} {a : Alert}
    (h : a ∈ temperature_alerts o th) : a.sensor_type = "temperature" := by
  rcases o with _ | t
  · simp [temperature_alerts] at h
  · simp only [temperature_alerts] at h
    unfold check_temperature_threshold at h
    split_ifs at h <;> simp_all

lemma mem_humidity_alerts {o : Option ℚ} {th : Thresholds} {a : Alert}
    (h : a ∈ humidity_alerts o th) : a.sensor_type = "humidity" := by
  rcases o with _ | v
  · simp [humidity_alerts] at h
  · simp only [humidity_alerts] at h
    unfold check_humidity_threshold at h
    split_ifs at h <;> simp_all

lemma mem_methane_alerts {o : Option ℤ} {th : Thresholds} {a : Alert}
    (h : a ∈ methane_alerts o th) : a.sensor_type = "methane" := by
  rcases o with _ | v
  · simp [methane_alerts] at h
  · simp only [methane_alerts] at h
    unfold check_methane_threshold at h
    split_ifs at h <;> simp_all

lemma mem_other_gases_alerts {o : Option ℤ} {th : Thresholds} {a : Alert}
    (h : a ∈ other_gases_alerts o th) : a.sensor_type = "other_gases" := by
  rcases o with _ | v
  · simp [other_gases_alerts] at h
  · simp only [other_gases_alerts] at h
    unfold check_other_gases_threshold at h
    split_ifs at h <;> simp_all

lemma filter_sensor_nil {l : List Alert} {nm s : String}
    (hl : ∀ a ∈ l, a.sensor_type = nm) (hs : s ≠ nm) :
    l.filter (fun a => a.sensor_type == s) = [] := by
  rw [List.filter_eq_nil_iff]
  intro a ha
  simp [hl a ha, Ne.symm hs]

lemma length_temperature_alerts (o : Option ℚ) (th : Thresholds) :
    (temperature_alerts o th).length ≤ 1 := by
  rcases o with _ | t
  · simp [temperature_alerts]
  · simp only [temperature_alerts]
    unfold check_temperature_threshold
    split_ifs <;> simp

lemma length_humidity_alerts (o : Option ℚ) (th : Thresholds) :
    (humidity_alerts o th).length ≤ 1 := by
  rcases o with _ | v
  · simp [humidity_alerts]
  · simp only [humidity_alerts]
    unfold check_humidity_threshold
    split_ifs <;> simp

lemma length_methane_alerts (o : Option ℤ) (th : Thresholds) :
    (methane_alerts o th).length ≤ 1 := by
  rcases o with _ | v
  · simp [methane_alerts]
  · simp only [methane_alerts]
    unfold check_methane_threshold
    split_ifs <;> simp

lemma length_other_gases_alerts (o : Option ℤ) (th : Thresholds) :
    (other_gases_alerts o th).length ≤ 1 := by
  rcases o with _ | v
  · simp [other_gases_alerts]
  · simp only [other_gases_alerts]
    unfold check_other_gases_threshold
    split_ifs <;> simp

lemma count_sensor_le_one (temperature humidity : Option ℚ)
    (methane other_gases : Option ℤ) (th : Thresholds) (s : String) :
    ((check_thresholds temperature humidity methane other_gases th).filter
      (fun a => a.sensor_type == s)).length ≤ 1 := by
  unfold check_thresholds
  rw [List.filter_append, List.filter_append, List.filter_append]
  simp only [List.length_append]
  by_cases hT : s = "temperature"
  · rw [filter_sensor_nil (fun a h => mem_humidity_alerts h) (by simp [hT]),
      filter_sensor_nil (fun a h => mem_methane_alerts h) (by simp [hT]),
      filter_sensor_nil (fun a h => mem_other_gases_alerts h) (by simp [hT])]
    simpa using le_trans (List.length_filter_le _ _)
      (length_temperature_alerts temperature th)
  by_cases hH : s = "humidity"
  · rw [filter_sensor_nil (fun a h => mem_temperature_alerts h) (by simp [hH]),
      filter_sensor_nil (fun a h => mem_methane_alerts h) (by simp [hH]),
      filter_sensor_nil (fun a h => mem_other_gases_alerts h) (by simp [hH])]
    simpa using le_trans (List.length_filter_le _ _)
      (length_humidity_alerts humidity th)
  by_cases hM : s = "methane"
  · rw [filter_sensor_nil (fun a h => mem_temperature_alerts h) (by simp [hM]),
      filter_sensor_nil (fun a h => mem_humidity_alerts h) (by simp [hM]),
      filter_sensor_nil (fun a h => mem_other_gases_alerts h) (by simp [hM])]
    simpa using le_trans (List.length_filter_le _ _)
      (length_methane_alerts methane th)
  by_cases hG : s = "other_gases"
  · rw [filter_sensor_nil (fun a h => mem_temperature_alerts h) (by simp [hG]),
      filter_sensor_nil (fun a h => mem_humidity_alerts h) (by simp [hG]),
      filter_sensor_nil (fun a h => mem_methane_alerts h) (by simp [hG])]
    simpa using le_trans (List.length_filter_le _ _)
      (length_other_gases_alerts other_gases th)
  · rw [filter_sensor_nil (fun a h => mem_temperature_alerts h) hT,
      filter_sensor_nil (fun a h => mem_humidity_alerts h) hH,
      filter_sensor_nil (fun a h => mem_methane_alerts h) hM,
      filter_sensor_nil (fun a h => mem_other_gases_alerts h) hG]
    simp

/-- C1: within one sensor (temperature shown, the evaluation order being
identical sequential early returns for every sensor), precedence is strict
critical-high, then critical-low, then warning-high, then warning-low, else
no alert; at most one alert is emitted per sensor per `check_thresholds`
evaluation; and a temperature exceeding both the critical max and the
warning max yields the critical alert and never the warning one. -/
theorem check_thresholds_per_sensor_precedence
    (t : ℚ) (hum : Option ℚ) (m g : Option ℤ) (th : Thresholds) :
    (t > th.temp_max →
      check_temperature_threshold t th.temp_max th.temp_min
          th.temp_warning_max th.temp_warning_min =
        some { sensor_type := "temperature", alert_type := ALERT_TYPE_CRITICAL,
               value := t, threshold := th.temp_max }) ∧
    (¬ t > th.temp_max → t < th.temp_min →
      check_temperature_threshold t th.temp_max th.temp_min
          th.temp_warning_max th.temp_warning_min =
        some { sensor_type := "temperature", alert_type := ALERT_TYPE_CRITICAL,
               value := t, threshold := th.temp_min }) ∧
    (¬ t > th.temp_max → ¬ t < th.temp_min → t > th.temp_warning_max →
      check_temperature_threshold t th.temp_max th.temp_min
          th.temp_warning_max th.temp_warning_min =
        some { sensor_type := "temperature", alert_type := ALERT_TYPE_WARNING,
               value := t, threshold := th.temp_warning_max }) ∧
    (¬ t > th.temp_max → ¬ t < th.temp_min → ¬ t > th.temp_warning_max →
        t < th.temp_warning_min →
      check_temperature_threshold t th.temp_max th.temp_min
          th.temp_warning_max th.temp_warning_min =
        some { sensor_type := "temperature", alert_type := ALERT_TYPE_WARNING,
               value := t, threshold := th.temp_warning_min }) ∧
    (¬ t > th.temp_max → ¬ t < th.temp_min → ¬ t > th.temp_warning_max →
        ¬ t < th.temp_warning_min →
      check_temperature_threshold t th.temp_max th.temp_min
          th.temp_warning_max th.temp_warning_min = none) ∧
    (∀ s : String,
      ((check_thresholds (some t) hum m g th).filter
        (fun a => a.sensor_type == s)).length ≤ 1) ∧
    (t > th.temp_max → t > th.temp_warning_max →
      ∀ a ∈ check_thresholds (some t) hum m g th, a.sensor_type = "temperature" →
        a.alert_type = ALERT_TYPE_CRITICAL ∧ a.alert_type ≠ ALERT_TYPE_WARNING) := by
  refine ⟨?_, ?_, ?_, ?_, ?_, ?_, ?_⟩
  · intro h1; simp [check_temperature_threshold, h1]
  · intro h1 h2; simp [check_temperature_threshold, h1, h2]
  · intro h1 h2 h3; simp [check_temperature_threshold, h1, h2, h3]
  · intro h1 h2 h3 h4; simp [check_temperature_threshold, h1, h2, h3, h4]
  · intro h1 h2 h3 h4; simp [check_temperature_threshold, h1, h2, h3, h4]
  · exact fun s => count_sensor_le_one (some t) hum m g th s
  · intro h1 _ a ha hsensor
    unfold check_thresholds at ha
    rcases List.mem_append.1 ha with ha2 | hG
    · rcases List.mem_append.1 ha2 with ha3 | hM
      · rcases List.mem_append.1 ha3 with hT | hH
        · have heq : temperature_alerts (some t) th =
            [{ sensor_type := "temperature", alert_type := ALERT_TYPE_CRITICAL,
               value := t, threshold := th.temp_max }] := by
            simp [temperature_alerts, check_temperature_threshold, h1]
          rw [heq] at hT
          simp at hT
          subst hT
          exact ⟨rfl, (by decide : ALERT_TYPE_CRITICAL ≠ ALERT_TYPE_WARNING)⟩
        · rw [mem_humidity_alerts hH] at hsensor
          exact absurd hsensor (by decide)
      · rw [mem_methane_alerts hM] at hsensor
        exact absurd hsensor (by decide)
    · rw [mem_other_gases_alerts hG] at hsensor
      exact absurd hsensor (by decide)

/-- C1 witness: the concrete reading 40 C, 60 percent, 150 ppm, 150 analog
against the default thresholds trips the critical-high temperature branch. -/
theorem check_thresholds_per_sensor_precedence_witness :
    check_temperature_threshold 40 defaultThresholds.temp_max
        defaultThresholds.temp_min defaultThresholds.temp_warning_max
        defaultThresholds.temp_warning_min =
      some { sensor_type := "temperature", alert_type := ALERT_TYPE_CRITICAL,
             value := 40, threshold := defaultThresholds.temp_max } ∧
    ((check_thresholds (some 40) (some 60) (some 150) (some 150)
        defaultThresholds).filter
      (fun a => a.sensor_type == "temperature")).length ≤ 1 := by
  have h := check_thresholds_per_sensor_precedence 40 (some 60) (some 150)
    (some 150) defaultThresholds
  exact ⟨h.1 (by decide), h.2.2.2.2.2.1 "temperature"⟩

/-- C2: for every reading constructed without an explicit `exhaust_fan`
argument and any methane value in the Arduino range [0, 1023], the derived
`exhaust_fan` field equals `methane >= 200`, which is exactly
`should_activate_exhaust_fan` under the default exhaust-fan threshold. -/
theorem exhaust_fan_derived (t h : ℚ) (m g : ℤ)
    (hm0 : 0 ≤ m) (hm1 : m ≤ 1023) :
    (mkSensorReading t h m g none).exhaust_fan = decide (m ≥ 200) ∧
    (mkSensorReading t h m g none).exhaust_fan = should_activate_exhaust_fan m := by
  constructor <;>
    simp [mkSensorReading, calculate_exhaust_fan_status,
      should_activate_exhaust_fan, METHANE_EXHAUST_FAN_THRESHOLD]

/-- C2 witness: methane 250 forces the fan on, at the concrete reading. -/
theorem exhaust_fan_derived_witness :
    (mkSensorReading 25 60 250 180 none).exhaust_fan = decide ((250 : ℤ) ≥ 200) ∧
    (mkSensorReading 25 60 250 180 none).exhaust_fan =
      should_activate_exhaust_fan 250 :=
  exhaust_fan_derived 25 60 250 180 (by decide) (by decide)

/-- C3: a reading whose temperature and humidity lie inside the warning
band and whose methane and other-gases values are at most their warning
thresholds produces zero alerts under the default configuration. -/
theorem no_alerts_within_warning_band (t h : ℚ) (m g : ℤ)
    (ht1 : TEMP_WARNING_MIN ≤ t) (ht2 : t ≤ TEMP_WARNING_MAX)
    (hh1 : HUMIDITY_WARNING_MIN ≤ h) (hh2 : h ≤ HUMIDITY_WARNING_MAX)
    (hm : m ≤ METHANE_WARNING) (hg : g ≤ OTHER_GASES_WARNING) :
    check_thresholds (some t) (some h) (some m) (some g) defaultThresholds = [] := by
  simp only [TEMP_WARNING_MIN, TEMP_WARNING_MAX] at ht1 ht2
  simp only [HUMIDITY_WARNING_MIN, HUMIDITY_WARNING_MAX] at hh1 hh2
  simp only [METHANE_WARNING] at hm
  simp only [OTHER_GASES_WARNING] at hg
  have hT : temperature_alerts (some t) defaultThresholds = [] := by
    simp only [temperature_alerts, defaultThresholds, TEMP_MAX, TEMP_MIN,
      TEMP_WARNING_MAX, TEMP_WARNING_MIN]
    unfold check_temperature_threshold
    split_ifs with a1 a2 a3 a4
    · exact absurd a1 (by push_neg; linarith)
    · exact absurd a2 (by push_neg; linarith)
    · exact absurd a3 (by push_neg; linarith)
    · exact absurd a4 (by push_neg; linarith)
    · rfl
  have hH : humidity_alerts (some h) defaultThresholds = [] := by
    simp only [humidity_alerts, defaultThresholds, HUMIDITY_MAX, HUMIDITY_MIN,
      HUMIDITY_WARNING_MAX, HUMIDITY_WARNING_MIN]
    unfold check_humidity_threshold
    split_ifs with a1 a2 a3 a4
    · exact absurd a1 (by push_neg; linarith)
    · exact absurd a2 (by push_neg; linarith)
    · exact absurd a3 (by push_neg; linarith)
    · exact absurd a4 (by push_neg; linarith)
    · rfl
  have hM : methane_alerts (some m) defaultThresholds = [] := by
    simp only [methane_alerts, defaultThresholds, METHANE_CRITICAL, METHANE_WARNING]
    unfold check_methane_threshold
    split_ifs with a1 a2
    · exact absurd a1 (by push_neg; linarith)
    · exact absurd a2 (by push_neg; linarith)
    · rfl
  have hG : other_gases_alerts (some g) defaultThresholds = [] := by
    simp only [other_gases_alerts, defaultThresholds, OTHER_GASES_CRITICAL,
      OTHER_GASES_WARNING]
    unfold check_other_gases_threshold
    split_ifs with a1 a2
    · exact absurd a1 (by push_neg; linarith)
    · exact absurd a2 (by push_neg; linarith)
    · rfl
  unfold check_thresholds
  rw [hT, hH, hM, hG]
  rfl

/-- C3 witness: the in-band reading 25 C, 60 percent, methane 150,
other gases 180 yields no alert. -/
theorem no_alerts_within_warning_band_witness :
    check_thresholds (some 25) (some 60) (some 150) (some 180)
      defaultThresholds = [] :=
  no_alerts_within_warning_band 25 60 150 180 (by decide) (by decide)
    (by decide) (by decide) (by decide) (by decide)

/-- C4: `get_overall_status` is the first-match decision table — critical
alerts give Critical, else more than 20 alerts Poor, else more than 5
alerts or a temperature range above 5.0 or a humidity range above 10.0
Fair, else any alert Good, else Excellent — so one critical alert
overrides every alert-count-based classification. -/
theorem overall_status_decision_table (s : AnalyticsSummary) :
    s.get_overall_status =
      (if s.critical_alert_count > 0 then "Critical"
       else if s.alert_count > 20 then "Poor"
       else if s.alert_count > 5 ∨ s.get_temperature_range > 5
           ∨ s.get_humidity_range > 10 then "Fair"
       else if s.alert_count > 0 then "Good"
       else "Excellent") ∧
    (s.critical_alert_count > 0 → s.get_overall_status = "Critical") := by
  have e : (s.alert_count > 5 ∨ s.is_temperature_stable = false
        ∨ s.is_humidity_stable = false)
      ↔ (s.alert_count > 5 ∨ s.get_temperature_range > 5
        ∨ s.get_humidity_range > 10) := by
    simp [AnalyticsSummary.is_temperature_stable,
      AnalyticsSummary.is_humidity_stable, not_le]
  constructor
  · unfold AnalyticsSummary.get_overall_status
    by_cases h1 : s.critical_alert_count > 0
    · simp [h1]
    · simp only [if_neg h1]
      by_cases h2 : s.alert_count > 20
      · simp [h2]
      · simp only [if_neg h2]
        rw [if_congr e rfl rfl]
  · intro h1
    unfold AnalyticsSummary.get_overall_status
    simp [h1]

/-- Concrete summary with one critical alert, used as the C4 witness
input. -/
def witnessSummaryCritical : AnalyticsSummary :=
  { summary_date := 0, avg_temperature := 25, max_temperature := 26,
    min_temperature := 24, avg_humidity := 60, max_humidity := 61,
    min_humidity := 59, avg_methane := 100, max_methane := 120,
    avg_other_gases := 150, alert_count := 3, critical_alert_count := 1,
    reading_count := 10 }

/-- C4 witness: one critical alert classifies the day Critical. -/
theorem overall_status_decision_table_witness :
    witnessSummaryCritical.get_overall_status = "Critical" :=
  (overall_status_decision_table witnessSummaryCritical).2 (by decide)

/-- C5: a day window with zero readings yields `none` — the "no data"
outcome, not a zeroed summary record and not an error — while any
nonempty window yields a summary. -/
theorem daily_summary_empty_no_data (d a c : ℤ) (readings : List SensorReading) :
    calculate_daily_summary d [] a c = none ∧
    (readings ≠ [] → ∃ s, calculate_daily_summary d readings a c = some s) := by
  constructor
  · rfl
  · intro h
    rcases readings with _ | ⟨r, rs⟩
    · exact absurd rfl h
    · exact ⟨_, rfl⟩

/-- C5 witness: the empty day gives no data; a one-reading day gives a
summary. -/
theorem daily_summary_empty_no_data_witness :
    calculate_daily_summary 0 [] 0 0 = none ∧
    ∃ s, calculate_daily_summary 0 [mkSensorReading 25 60 100 150 none] 0 0
      = some s :=
  ⟨(daily_summary_empty_no_data 0 0 0 []).1,
   (daily_summary_empty_no_data 0 0 0 [mkSensorReading 25 60 100 150 none]).2
     (by simp)⟩

/-- C10: the derived rates are total — a zero reading count gives alert
rate 0.0 and a zero alert count gives critical-alert percentage 0.0; the
guards fire before any division. -/
theorem derived_rates_total (s : AnalyticsSummary) :
    (s.reading_count = 0 → s.get_alert_rate = 0) ∧
    (s.alert_count = 0 → s.get_critical_alert_percentage = 0) := by
  constructor
  · intro h; simp [AnalyticsSummary.get_alert_rate, h]
  · intro h; simp [AnalyticsSummary.get_critical_alert_percentage, h]

/-- Concrete summary with zero counts, as deserialized from an empty-day
document, used as the C10 witness input. -/
def witnessSummaryZero : AnalyticsSummary :=
  { summary_date := 0, avg_temperature := 0, max_temperature := 0,
    min_temperature := 0, avg_humidity := 0, max_humidity := 0,
    min_humidity := 0, avg_methane := 0, max_methane := 0,
    avg_other_gases := 0, alert_count := 0, critical_alert_count := 0,
    reading_count := 0 }

/-- C10 witness: both rates are 0.0 on the all-zero summary. -/
theorem derived_rates_total_witness :
    witnessSummaryZero.get_alert_rate = 0 ∧
    witnessSummaryZero.get_critical_alert_percentage = 0 :=
  ⟨(derived_rates_total witnessSummaryZero).1 rfl,
   (derived_rates_total witnessSummaryZero).2 rfl⟩

lemma length_daily_averages (rs : List (ℤ × ℚ)) :
    (daily_averages rs).length = (distinct_days rs).length :=
  List.length_map _ _

lemma calculate_sensor_trends_of_lt_two {rs : List (ℤ × ℚ)}
    (h : (daily_averages rs).length < 2) :
    calculate_sensor_trends rs =
      { trend := "insufficient_data", trend_strength := 0 } := by
  simp only [calculate_sensor_trends]
  rw [if_neg (by omega)]

lemma calculate_sensor_trends_of_two_le {rs : List (ℤ × ℚ)}
    (h : 2 ≤ (daily_averages rs).length) :
    calculate_sensor_trends rs =
      { trend := if |polyfit_slope (daily_averages rs)| < 1/10 then "stable"
          else if polyfit_slope (daily_averages rs) > 0 then "increasing"
          else "decreasing",
        trend_strength := |polyfit_slope (daily_averages rs)| } := by
  simp only [calculate_sensor_trends]
  rw [if_pos h]

/-- C7: with fewer than 2 distinct calendar days the trend is
`insufficient_data` with strength 0; otherwise, writing `s` for the
least-squares slope of the daily means against the sequence index, the
label is `stable` exactly when `|s| < 0.1`, `increasing` exactly when
`s >= 0.1`, `decreasing` exactly when `s <= -0.1`, and the trend strength
is `|s|`. -/
theorem trend_classification (rs : List (ℤ × ℚ)) :
    ((distinct_days rs).length < 2 →
      (calculate_sensor_trends rs).trend = "insufficient_data" ∧
      (calculate_sensor_trends rs).trend_strength = 0) ∧
    (2 ≤ (distinct_days rs).length →
      (calculate_sensor_trends rs).trend_strength
          = |polyfit_slope (daily_averages rs)| ∧
      ((calculate_sensor_trends rs).trend = "stable"
          ↔ |polyfit_slope (daily_averages rs)| < 1/10) ∧
      ((calculate_sensor_trends rs).trend = "increasing"
          ↔ 1/10 ≤ polyfit_slope (daily_averages rs)) ∧
      ((calculate_sensor_trends rs).trend = "decreasing"
          ↔ polyfit_slope (daily_averages rs) ≤ -(1/10))) := by
  constructor
  · intro h
    rw [calculate_sensor_trends_of_lt_two (by rw [length_daily_averages]; omega)]
    exact ⟨rfl, rfl⟩
  · intro h
    rw [calculate_sensor_trends_of_two_le (by rw [length_daily_averages]; omega)]
    set sl := polyfit_slope (daily_averages rs) with hsl
    refine ⟨rfl, ?_, ?_, ?_⟩
    · by_cases h1 : |sl| < 1/10
      · simp only [if_pos h1]
        exact ⟨fun _ => h1, fun _ => trivial⟩
      · simp only [if_neg h1]
        constructor
        · intro hc
          by_cases h2 : sl > 0
          · rw [if_pos h2] at hc; exact absurd hc (by decide)
          · rw [if_neg h2] at hc; exact absurd hc (by decide)
        · intro hc; exact absurd hc h1
    · by_cases h1 : |sl| < 1/10
      · simp only [if_pos h1]
        constructor
        · intro hc; exact absurd hc (by decide)
        · intro hc; exfalso; have hle := le_abs_self sl; linarith
      · simp only [if_neg h1]
        rw [not_lt] at h1
        by_cases h2 : sl > 0
        · simp only [if_pos h2]
          constructor
          · intro hx
            calc (1:ℚ)/10 ≤ |sl| := h1
              _ = sl := abs_of_pos h2
          · intro hx; trivial
        · simp only [if_neg h2]
          push_neg at h2
          constructor
          · intro hc; exact absurd hc (by decide)
          · intro hc; exfalso; linarith
    · by_cases h1 : |sl| < 1/10
      · simp only [if_pos h1]
        constructor
        · intro hc; exact absurd hc (by decide)
        · intro hc; exfalso; have hle := neg_abs_le sl; linarith
      · simp only [if_neg h1]
        rw [not_lt] at h1
        by_cases h2 : sl > 0
        · simp only [if_pos h2]
          constructor
          · intro hc; exact absurd hc (by decide)
          · intro hc; exfalso; linarith
        · simp only [if_neg h2]
          push_neg at h2
          constructor
          · intro hx
            have habs : |sl| = -sl := abs_of_nonpos h2
            linarith
          · intro hx; trivial

/-- C7 witness: the two-day window with daily means 0 and 1 has slope 1,
hence trend increasing with strength 1. -/
theorem trend_classification_witness :
    (calculate_sensor_trends [((0:ℤ), (0:ℚ)), (1, 1)]).trend = "increasing" ∧
    (calculate_sensor_trends [((0:ℤ), (0:ℚ)), (1, 1)]).trend_strength = 1 := by
  have hdays : distinct_days [((0:ℤ), (0:ℚ)), (1, 1)] = [0, 1] := by decide
  have hda : daily_averages [((0:ℤ), (0:ℚ)), (1, 1)] =
      [dayMean [((0:ℤ), (0:ℚ)), (1, 1)] 0, dayMean [((0:ℤ), (0:ℚ)), (1, 1)] 1] := by
    rw [daily_averages, hdays]
    rfl
  have hm0 : dayMean [((0:ℤ), (0:ℚ)), (1, 1)] 0 = 0 := by
    have hf : List.filter (fun p => p.1 == (0:ℤ)) [((0:ℤ), (0:ℚ)), (1, 1)]
        = [(0, 0)] := by decide
    simp only [dayMean, hf, listMean]
    norm_num
  have hm1 : dayMean [((0:ℤ), (0:ℚ)), (1, 1)] 1 = 1 := by
    have hf : List.filter (fun p => p.1 == (1:ℤ)) [((0:ℤ), (0:ℚ)), (1, 1)]
        = [(1, 1)] := by decide
    simp only [dayMean, hf, listMean]
    norm_num
  have hslope : polyfit_slope (daily_averages [((0:ℤ), (0:ℚ)), (1, 1)]) = 1 := by
    rw [hda, hm0, hm1]
    norm_num [polyfit_slope, List.range_succ, List.zipWith, List.sum_cons]
  have h := (trend_classification [((0:ℤ), (0:ℚ)), (1, 1)]).2
    (by rw [hdays]; decide)
  refine ⟨h.2.2.1.mpr ?_, ?_⟩
  · rw [hslope]; norm_num
  · rw [h.1, hslope]; norm_num

/-- C8 counterexample: the mapping with temperature 100 (out of range) and
a non-numeric humidity.  Validation reports the temperature range
violation, so the humidity numeric (type) check was not performed before
the temperature range check — refuting the claim that presence and
numericness of all four fields is checked before any range check. -/
theorem validate_order_counterexample :
    validate_sensor_reading_dict
        { temperature := some (PyVal.num 100),
          humidity := some (PyVal.str "n/a"),
          methane := some (PyVal.num 150),
          other_gases := some (PyVal.num 180) }
      = (false, "temperature: Temperature must be between 0-60°C") ∧
    (validate_humidity (PyVal.str "n/a")).1 = false ∧
    (validate_humidity (PyVal.str "n/a")).2 = "Humidity must be a number" := by
  refine ⟨?_, rfl, rfl⟩
  decide

/-- C8 (amended): presence of the four required fields is checked first, in
the fixed order temperature, humidity, methane, other_gases; then each
field is validated in that same order, a field's numeric check preceding
its own range check, and the first failing field determines the reported
error; a fully present, numeric, in-range mapping validates successfully. -/
theorem validate_sensor_reading_dict_order (data : ReadingDict) :
    (data.temperature = none →
      validate_sensor_reading_dict data
        = (false, "Missing required field: temperature")) ∧
    (∀ tv, data.temperature = some tv → data.humidity = none →
      validate_sensor_reading_dict data
        = (false, "Missing required field: humidity")) ∧
    (∀ tv hv, data.temperature = some tv → data.humidity = some hv →
      data.methane = none →
      validate_sensor_reading_dict data
        = (false, "Missing required field: methane")) ∧
    (∀ tv hv mv, data.temperature = some tv → data.humidity = some hv →
      data.methane = some mv → data.other_gases = none →
      validate_sensor_reading_dict data
        = (false, "Missing required field: other_gases")) ∧
    (∀ tv hv mv gv, data.temperature = some tv → data.humidity = some hv →
      data.methane = some mv → data.other_gases = some gv →
      (((validate_temperature tv).1 = false →
        validate_sensor_reading_dict data
          = (false, "temperature: " ++ (validate_temperature tv).2)) ∧
      ((validate_temperature tv).1 = true → (validate_humidity hv).1 = false →
        validate_sensor_reading_dict data
          = (false, "humidity: " ++ (validate_humidity hv).2)) ∧
      ((validate_temperature tv).1 = true → (validate_humidity hv).1 = true →
        (validate_methane mv).1 = false →
        validate_sensor_reading_dict data
          = (false, "methane: " ++ (validate_methane mv).2)) ∧
      ((validate_temperature tv).1 = true → (validate_humidity hv).1 = true →
        (validate_methane mv).1 = true → (validate_other_gases gv).1 = false →
        validate_sensor_reading_dict data
          = (false, "other_gases: " ++ (validate_other_gases gv).2)) ∧
      ((validate_temperature tv).1 = true → (validate_humidity hv).1 = true →
        (validate_methane mv).1 = true → (validate_other_gases gv).1 = true →
        validate_sensor_reading_dict data = (true, "")))) ∧
    (∀ tq hq mq gq : ℚ, data.temperature = some (PyVal.num tq) →
      data.humidity = some (PyVal.num hq) →
      data.methane = some (PyVal.num mq) →
      data.other_gases = some (PyVal.num gq) →
      0 ≤ tq → tq ≤ 60 → 0 ≤ hq → hq ≤ 100 →
      0 ≤ mq → mq ≤ 1023 → 0 ≤ gq → gq ≤ 1023 →
      validate_sensor_reading_dict data = (true, "")) := by
  refine ⟨?_, ?_, ?_, ?_, ?_, ?_⟩
  · intro h1
    simp [validate_sensor_reading_dict, h1]
  · intro tv h1 h2
    simp [validate_sensor_reading_dict, h1, h2]
  · intro tv hv h1 h2 h3
    simp [validate_sensor_reading_dict, h1, h2, h3]
  · intro tv hv mv h1 h2 h3 h4
    simp [validate_sensor_reading_dict, h1, h2, h3, h4]
  · intro tv hv mv gv h1 h2 h3 h4
    refine ⟨?_, ?_, ?_, ?_, ?_⟩
    · intro hT
      simp [validate_sensor_reading_dict, h1, h2, h3, h4, hT]
    · intro hT hH
      simp [validate_sensor_reading_dict, h1, h2, h3, h4, hT, hH]
    · intro hT hH hM
      simp [validate_sensor_reading_dict, h1, h2, h3, h4, hT, hH, hM]
    · intro hT hH hM hG
      simp [validate_sensor_reading_dict, h1, h2, h3, h4, hT, hH, hM, hG]
    · intro hT hH hM hG
      simp [validate_sensor_reading_dict, h1, h2, h3, h4, hT, hH, hM, hG]
  · intro tq hq mq gq h1 h2 h3 h4 ht0 ht1 hh0 hh1 hm0 hm1 hg0 hg1
    have hT : validate_temperature (PyVal.num tq) = (true, "") := by
      simp only [validate_temperature]
      rw [if_neg (not_lt.mpr ht0), if_neg (not_lt.mpr ht1)]
    have hH : validate_humidity (PyVal.num hq) = (true, "") := by
      simp only [validate_humidity]
      rw [if_neg (not_lt.mpr hh0), if_neg (not_lt.mpr hh1)]
    have hM : validate_methane (PyVal.num mq) = (true, "") := by
      have hpt : pytrunc mq = ⌊mq⌋ := by rw [pytrunc, if_pos hm0]
      have hf0 : (0 : ℤ) ≤ ⌊mq⌋ := Int.floor_nonneg.mpr hm0
      have hf1 : ⌊mq⌋ ≤ 1023 := by
        have := Int.floor_le_floor (α := ℚ) hm1
        simpa using this
      simp only [validate_methane, hpt]
      rw [if_neg (not_lt.mpr hf0), if_neg (not_lt.mpr hf1)]
    have hG : validate_other_gases (PyVal.num gq) = (true, "") := by
      have hpt : pytrunc gq = ⌊gq⌋ := by rw [pytrunc, if_pos hg0]
      have hf0 : (0 : ℤ) ≤ ⌊gq⌋ := Int.floor_nonneg.mpr hg0
      have hf1 : ⌊gq⌋ ≤ 1023 := by
        have := Int.floor_le_floor (α := ℚ) hg1
        simpa using this
      simp only [validate_other_gases, hpt]
      rw [if_neg (not_lt.mpr hf0), if_neg (not_lt.mpr hf1)]
    simp [validate_sensor_reading_dict, h1, h2, h3, h4, hT, hH, hM, hG]

/-- C8 witness: the in-range mapping 25.5 C, 65 percent, methane 150,
other gases 180 validates successfully, through the last clause of the
ordering theorem. -/
theorem validate_sensor_reading_dict_order_witness :
    validate_sensor_reading_dict
        { temperature := some (PyVal.num (51/2)),
          humidity := some (PyVal.num 65),
          methane := some (PyVal.num 150),
          other_gases := some (PyVal.num 180) }
      = (true, "") :=
  (validate_sensor_reading_dict_order
      { temperature := some (PyVal.num (51/2)),
        humidity := some (PyVal.num 65),
        methane := some (PyVal.num 150),
        other_gases := some (PyVal.num 180) }).2.2.2.2.2
    (51/2) 65 150 180 rfl rfl rfl rfl
    (by norm_num) (by norm_num) (by norm_num) (by norm_num)
    (by norm_num) (by norm_num) (by norm_num) (by norm_num)

/-- C9: evaluated at the failing scenario, resolving twice.  The first
resolve at time 1 stamps `resolved_at = 1`; the second resolve at time 2
returns success and keeps the alert resolved but re-stamps `resolved_at`
to 2, because `update_alert_status` writes `resolved_at = utcnow()`
unconditionally whenever `is_resolved` is true, never reading the prior
state (the general shape is the last conjunct). -/
theorem resolve_alert_restamps :
    (resolve_alert { is_resolved := false, resolved_at := none } 1).1
      = { is_resolved := true, resolved_at := some 1 } ∧
    (resolve_alert
        (resolve_alert { is_resolved := false, resolved_at := none } 1).1 2).2
      = true ∧
    (resolve_alert
        (resolve_alert { is_resolved := false, resolved_at := none } 1).1 2).1
      = { is_resolved := true, resolved_at := some 2 } ∧
    (∀ (a : AlertRecord) (now : ℤ),
      resolve_alert a now
        = ({ is_resolved := true, resolved_at := some now }, true)) := by
  refine ⟨rfl, rfl, rfl, fun a now => rfl⟩

lemma listMean_replicate (n : ℕ) (hn : n ≠ 0) (c : ℚ) :
    listMean (List.replicate n c) = c := by
  have hne : (n : ℚ) ≠ 0 := Nat.cast_ne_zero.mpr hn
  simp only [listMean, List.sum_replicate, List.length_replicate, nsmul_eq_mul]
  field_simp

lemma pearson_entry_replicate_left (n : ℕ) (hn : n ≠ 0) (c : ℚ) (ys : List ℚ) :
    pearson_entry (List.replicate n c) ys = CorrValue.nan := by
  simp only [pearson_entry, listMean_replicate n hn c]
  have hxx : ((List.replicate n c).map (fun x => (x - c) * (x - c))).sum = 0 := by
    simp [List.map_replicate, List.sum_replicate]
  rw [hxx]
  simp

/-- C6: evaluated at the spec's scenario.  A window of 9 readings gives the
explicit insufficient-data result; a window of 10 identical readings gives
a matrix whose every pair is NaN — the pandas zero-variance 0/0 — stored
silently, not a handled 0.0 or explicit undefined marker. -/
theorem correlations_zero_variance_nan :
    get_correlations (List.replicate 9 (mkSensorReading 25 60 150 180 none))
      = CorrelationsResult.insufficient 9 ∧
    get_correlations (List.replicate 10 (mkSensorReading 25 60 150 180 none))
      = CorrelationsResult.matrix
          [("temperature_humidity", CorrValue.nan),
           ("temperature_methane", CorrValue.nan),
           ("temperature_other_gases", CorrValue.nan),
           ("humidity_methane", CorrValue.nan),
           ("humidity_other_gases", CorrValue.nan),
           ("methane_other_gases", CorrValue.nan)] 10 := by
  constructor
  · rfl
  · unfold get_correlations
    rw [if_neg (by simp)]
    simp only [List.map_replicate, List.length_replicate]
    rw [pearson_entry_replicate_left 10 (by norm_num) _ _,
      pearson_entry_replicate_left 10 (by norm_num) _ _,
      pearson_entry_replicate_left 10 (by norm_num) _ _,
      pearson_entry_replicate_left 10 (by norm_num) _ _,
      pearson_entry_replicate_left 10 (by norm_num) _ _,
      pearson_entry_replicate_left 10 (by norm_num) _ _]

end Cropverse
